import Mathlib

/-!
Verification of the mining issuance calculator
(`pallets/mining/src/mining.rs` of Metaverse-Network).

Machine integers (`u64`, `u32`) are embedded as `Nat` together with the
explicit bound `2 ^ 64` (resp. `2 ^ 32`) where overflow matters.  The Rust
`checked_mul` / `checked_div` operations return `Option Nat`; a call to
`.unwrap()` that would panic is modelled by the surrounding function
returning `none`, so a function that "never panics" is one that always
returns `some`.
-/

/-- The size of the `u64` type: `2 ^ 64`.  A value `v` fits in `u64` iff
`v < u64size`. -/
def u64size : Nat := 2 ^ 64

/-- Rust `u64::checked_mul`: `some (a * b)` when the product fits in 64
bits, `none` on overflow. -/
def checked_mul (a b : Nat) : Option Nat :=
  if a * b < u64size then some (a * b) else none

/-- Rust `u64::checked_div`: floor division, `none` exactly when the
divisor is zero. -/
def checked_div (a b : Nat) : Option Nat :=
  if b = 0 then none else some (a / b)

/-- The `Range<T>` struct of the source: five fields
`min`, `ideal`, `max`, `land_allocation`, `metaverse_allocation`. -/
structure Range (T : Type) where
  min : T
  ideal : T
  max : T
  land_allocation : T
  metaverse_allocation : T
  deriving Repr, DecidableEq

/-- The source's `Range::is_valid`: `max >= ideal && ideal >= min`. -/
def Range.is_valid {T : Type} [LinearOrder T] (r : Range T) : Bool :=
  decide (r.max ≥ r.ideal) && decide (r.ideal ≥ r.min)

/-- The `MiningResourceRateInfo` struct: minting ratio (`u64`) and the two
staking reward percentages (`u32`). -/
structure MiningResourceRateInfo where
  ratio : Nat
  land_reward : Nat
  metaverse_reward : Nat
  deriving Repr, DecidableEq

/-- The source's `MiningResourceRateInfo::new`: plain constructor, no
validation. -/
def MiningResourceRateInfo.new (ratio land_reward metaverse_reward : Nat) :
    MiningResourceRateInfo :=
  { ratio := ratio, land_reward := land_reward, metaverse_reward := metaverse_reward }

/-- The source's `set_ratio` mutator (`&mut self` modelled as returning the
updated record). -/
def MiningResourceRateInfo.set_ratio (c : MiningResourceRateInfo) (ratio : Nat) :
    MiningResourceRateInfo :=
  { c with ratio := ratio }

/-- The source's `set_land_reward` mutator. -/
def MiningResourceRateInfo.set_land_reward (c : MiningResourceRateInfo) (land_reward : Nat) :
    MiningResourceRateInfo :=
  { c with land_reward := land_reward }

/-- The source's `set_metaverse_reward` mutator. -/
def MiningResourceRateInfo.set_metaverse_reward (c : MiningResourceRateInfo)
    (metaverse_reward : Nat) : MiningResourceRateInfo :=
  { c with metaverse_reward := metaverse_reward }

/-- `SECONDS_PER_YEAR` constant of the source (Julian year). -/
def SECONDS_PER_YEAR : Nat := 31557600

/-- `SECONDS_PER_BLOCK` constant of the source. -/
def SECONDS_PER_BLOCK : Nat := 12

/-- `BLOCKS_PER_YEAR = SECONDS_PER_YEAR / SECONDS_PER_BLOCK` (integer
division on `u32`). -/
def BLOCKS_PER_YEAR : Nat := SECONDS_PER_YEAR / SECONDS_PER_BLOCK

/-- The source's `rounds_per_year`: `BLOCKS_PER_YEAR / blocks_per_round`
on `u32`.  Rust division by zero panics, modelled as `none`; the round
length is read from the external `Round` collaborator and is passed here
as the argument `blocks_per_round`. -/
def rounds_per_year (blocks_per_round : Nat) : Option Nat :=
  if blocks_per_round = 0 then none else some (BLOCKS_PER_YEAR / blocks_per_round)

/-- The test module's `mock_round_issuance_per_year`, whose body is the
arithmetic core shared verbatim with `round_issuance_range`:
`issuance = land_units.checked_mul(ratio).unwrap_or(0)`, then each
allocation is `issuance.checked_mul(pct).unwrap_or(issuance)
.checked_div(100).unwrap()`.  The `.unwrap()` of a `checked_div` result is
modelled by `Option.bind` / `Option.map`: a `none` from `checked_div`
propagates as a panic (= overall `none`). -/
def mock_round_issuance_per_year (config : MiningResourceRateInfo)
    (land_unit_circulation : Nat) : Option (Range Nat) :=
  let issuance_per_round := (checked_mul land_unit_circulation config.ratio).getD 0
  (checked_div ((checked_mul issuance_per_round config.land_reward).getD issuance_per_round)
      100).bind fun land_allocation =>
    (checked_div
        ((checked_mul issuance_per_round config.metaverse_reward).getD issuance_per_round)
        100).map fun metaverse_allocation =>
      { min := issuance_per_round
        ideal := issuance_per_round
        max := issuance_per_round
        land_allocation := land_allocation
        metaverse_allocation := metaverse_allocation }

/-- The source's `round_issuance_range`.  The external reads (`Round`
collaborator round length, `Estate` handler land-unit count) are passed as
the arguments `blocks_per_round` and `total_land_unit_circulating`.  The
function first calls `rounds_per_year` (result bound but unused in the
source), then computes the issuance and the two allocations exactly as in
`mock_round_issuance_per_year`. -/
def round_issuance_range (blocks_per_round : Nat) (total_land_unit_circulating : Nat)
    (config : MiningResourceRateInfo) : Option (Range Nat) :=
  (rounds_per_year blocks_per_round).bind fun _total_round_per_year =>
    let minting_ratio := config.ratio
    let issuance_per_round := (checked_mul total_land_unit_circulating minting_ratio).getD 0
    (checked_div ((checked_mul issuance_per_round config.land_reward).getD issuance_per_round)
        100).bind fun land_allocation =>
      (checked_div
          ((checked_mul issuance_per_round config.metaverse_reward).getD issuance_per_round)
          100).map fun metaverse_allocation =>
        { min := issuance_per_round
          ideal := issuance_per_round
          max := issuance_per_round
          land_allocation := land_allocation
          metaverse_allocation := metaverse_allocation }

/-- The issuance amount computed in the first step of the calculator:
`land_units.checked_mul(ratio).unwrap_or(0)`. -/
def issuance_per_round (config : MiningResourceRateInfo) (land_unit_circulation : Nat) : Nat :=
  (checked_mul land_unit_circulation config.ratio).getD 0

/-- One allocation amount as computed by the calculator:
`issuance.checked_mul(pct).unwrap_or(issuance) / 100`. -/
def allocation_of (issuance pct : Nat) : Nat :=
  ((checked_mul issuance pct).getD issuance) / 100

theorem checked_div_hundred (a : Nat) : checked_div a 100 = some (a / 100) := by
  simp [checked_div]

/-- Evaluation lemma: `mock_round_issuance_per_year` always succeeds, and
its fields are the issuance (three times) and the two allocations. -/
theorem mock_round_issuance_per_year_eq (c : MiningResourceRateInfo) (l : Nat) :
    mock_round_issuance_per_year c l =
      some
        { min := issuance_per_round c l
          ideal := issuance_per_round c l
          max := issuance_per_round c l
          land_allocation := allocation_of (issuance_per_round c l) c.land_reward
          metaverse_allocation := allocation_of (issuance_per_round c l) c.metaverse_reward } := by
  simp [mock_round_issuance_per_year, issuance_per_round, allocation_of, checked_div_hundred,
    Option.bind]

/-- Bridge lemma: with a nonzero round length, `round_issuance_range`
computes exactly `mock_round_issuance_per_year`. -/
theorem round_issuance_range_eq_mock (bpr l : Nat) (c : MiningResourceRateInfo)
    (h : bpr ≠ 0) :
    round_issuance_range bpr l c = mock_round_issuance_per_year c l := by
  simp [round_issuance_range, mock_round_issuance_per_year, rounds_per_year, h, Option.bind]

theorem allocation_of_overflow (i pct : Nat) (h : u64size ≤ i * pct) :
    allocation_of i pct = i / 100 := by
  unfold allocation_of checked_mul
  rw [if_neg (by omega)]
  rfl

theorem allocation_of_zero (pct : Nat) : allocation_of 0 pct = 0 := by
  unfold allocation_of checked_mul
  rw [if_pos (by norm_num [u64size])]
  simp

theorem allocation_of_le (i pct : Nat) (hp : pct ≤ 100) : allocation_of i pct ≤ i := by
  unfold allocation_of checked_mul
  by_cases h : i * pct < u64size
  · rw [if_pos h]
    calc i * pct / 100 ≤ i * 100 / 100 := Nat.div_le_div_right (Nat.mul_le_mul_left i hp)
      _ = i := Nat.mul_div_cancel i (by norm_num)
  · rw [if_neg h]
    exact Nat.div_le_self i 100

/-- C1 counterexample: with ratio `2^63`, both reward percentages `3` and
one land unit, the issuance is `2^63` and `issuance * 3` overflows `u64`,
yet the computed `land_allocation` is `2^63 / 100 = 92233720368547758`,
not the issuance itself — refuting the claim that the overflow fallback
yields `land_allocation == issuance`. -/
theorem overflow_fallback_counterexample :
    u64size ≤ issuance_per_round ⟨9223372036854775808, 3, 3⟩ 1 * 3 ∧
    1 * (9223372036854775808 : Nat) < u64size ∧
    (mock_round_issuance_per_year ⟨9223372036854775808, 3, 3⟩ 1).map Range.land_allocation
      = some 92233720368547758 ∧
    (round_issuance_range 12 1 ⟨9223372036854775808, 3, 3⟩).map Range.land_allocation
      = some 92233720368547758 ∧
    (92233720368547758 : Nat) ≠ issuance_per_round ⟨9223372036854775808, 3, 3⟩ 1 := by
  refine ⟨by decide, by decide, by decide, by decide, by decide⟩

/-- C1 (amended): when `issuance * land_reward` overflows `u64`, the
computed `land_allocation` equals `floor(issuance / 100)` (the fallback
`issuance` is still divided by 100), and symmetrically for
`metaverse_reward` and `metaverse_allocation`. -/
theorem overflow_fallback_allocation (c : MiningResourceRateInfo) (l : Nat) :
    (u64size ≤ issuance_per_round c l * c.land_reward →
      (mock_round_issuance_per_year c l).map Range.land_allocation
        = some (issuance_per_round c l / 100)) ∧
    (u64size ≤ issuance_per_round c l * c.metaverse_reward →
      (mock_round_issuance_per_year c l).map Range.metaverse_allocation
        = some (issuance_per_round c l / 100)) := by
  constructor <;> intro h <;> rw [mock_round_issuance_per_year_eq] <;>
    simp [allocation_of_overflow _ _ h]

/-- C1 amended-claim witness at the counterexample input. -/
theorem overflow_fallback_allocation_witness :
    (mock_round_issuance_per_year ⟨9223372036854775808, 3, 3⟩ 1).map Range.land_allocation
      = some (issuance_per_round ⟨9223372036854775808, 3, 3⟩ 1 / 100) :=
  (overflow_fallback_allocation ⟨9223372036854775808, 3, 3⟩ 1).1 (by decide)

/-- C2: when `land_units * ratio` overflows `u64`, the issuance saturates
to zero and the whole returned range (min, ideal, max and both
allocations) is zero, for the test helper and for `round_issuance_range`
alike. -/
theorem base_overflow_saturates (c : MiningResourceRateInfo) (l bpr : Nat)
    (h : u64size ≤ l * c.ratio) (hbpr : bpr ≠ 0) :
    mock_round_issuance_per_year c l = some ⟨0, 0, 0, 0, 0⟩ ∧
    round_issuance_range bpr l c = some ⟨0, 0, 0, 0, 0⟩ := by
  have hi : issuance_per_round c l = 0 := by
    unfold issuance_per_round checked_mul
    rw [if_neg (by omega)]
    rfl
  rw [round_issuance_range_eq_mock _ _ _ hbpr, mock_round_issuance_per_year_eq, hi,
    allocation_of_zero, allocation_of_zero]
  exact ⟨rfl, rfl⟩

/-- C2 witness: `2^63 * 2` overflows, so everything is zero. -/
theorem base_overflow_saturates_witness :
    mock_round_issuance_per_year ⟨2, 50, 50⟩ 9223372036854775808 = some ⟨0, 0, 0, 0, 0⟩ ∧
    round_issuance_range 12 9223372036854775808 ⟨2, 50, 50⟩ = some ⟨0, 0, 0, 0, 0⟩ :=
  base_overflow_saturates ⟨2, 50, 50⟩ 9223372036854775808 12 (by norm_num [u64size]) (by decide)

/-- C3: the issuance computation is total — for every config (percentages
outside 0–100 included) and every land-unit count it returns a range; the
division by the constant 100 never fails. The nonzero round length only
guards the separate annualization helper called on entry to
`round_issuance_range`. -/
theorem compute_is_total (c : MiningResourceRateInfo) (l bpr : Nat) (hbpr : bpr ≠ 0) :
    (mock_round_issuance_per_year c l).isSome = true ∧
    (round_issuance_range bpr l c).isSome = true := by
  rw [round_issuance_range_eq_mock _ _ _ hbpr, mock_round_issuance_per_year_eq]
  exact ⟨rfl, rfl⟩

/-- C3 witness, with percentage fields far outside 0–100. -/
theorem compute_is_total_witness :
    (mock_round_issuance_per_year ⟨7, 2000, 4000000000⟩ 5).isSome = true ∧
    (round_issuance_range 12 5 ⟨7, 2000, 4000000000⟩).isSome = true :=
  compute_is_total ⟨7, 2000, 4000000000⟩ 5 12 (by decide)

/-- C4: on the fully non-overflowing path the allocations are the floor
divisions `issuance * pct / 100` with `issuance = land_units * ratio`. -/
theorem allocation_correct (c : MiningResourceRateInfo) (l bpr : Nat)
    (h1 : l * c.ratio < u64size)
    (h2 : l * c.ratio * c.land_reward < u64size)
    (h3 : l * c.ratio * c.metaverse_reward < u64size)
    (hbpr : bpr ≠ 0) :
    (mock_round_issuance_per_year c l).map
        (fun r => (r.land_allocation, r.metaverse_allocation))
      = some (l * c.ratio * c.land_reward / 100, l * c.ratio * c.metaverse_reward / 100) ∧
    (round_issuance_range bpr l c).map
        (fun r => (r.land_allocation, r.metaverse_allocation))
      = some (l * c.ratio * c.land_reward / 100, l * c.ratio * c.metaverse_reward / 100) := by
  have hi : issuance_per_round c l = l * c.ratio := by
    unfold issuance_per_round checked_mul
    rw [if_pos h1]
    rfl
  have hla : allocation_of (issuance_per_round c l) c.land_reward
      = l * c.ratio * c.land_reward / 100 := by
    unfold allocation_of checked_mul
    rw [hi, if_pos h2]
    rfl
  have hma : allocation_of (issuance_per_round c l) c.metaverse_reward
      = l * c.ratio * c.metaverse_reward / 100 := by
    unfold allocation_of checked_mul
    rw [hi, if_pos h3]
    rfl
  rw [round_issuance_range_eq_mock _ _ _ hbpr, mock_round_issuance_per_year_eq, hla, hma]
  exact ⟨rfl, rfl⟩

/-- C4 witness at the reference scenario: ratio 10, rewards 20/80, 2000
land units give allocations 4000 and 16000. -/
theorem allocation_correct_witness :
    (mock_round_issuance_per_year ⟨10, 20, 80⟩ 2000).map
        (fun r => (r.land_allocation, r.metaverse_allocation))
      = some (2000 * 10 * 20 / 100, 2000 * 10 * 80 / 100) ∧
    (round_issuance_range 12 2000 ⟨10, 20, 80⟩).map
        (fun r => (r.land_allocation, r.metaverse_allocation))
      = some (2000 * 10 * 20 / 100, 2000 * 10 * 80 / 100) :=
  allocation_correct ⟨10, 20, 80⟩ 2000 12 (by norm_num [u64size]) (by norm_num [u64size])
    (by norm_num [u64size]) (by decide)

/-- C5: when `land_units * ratio` does not overflow, the returned range
has `min = ideal = max = ratio * land_units`. -/
theorem no_overflow_range (c : MiningResourceRateInfo) (l bpr : Nat)
    (h : l * c.ratio < u64size) (hbpr : bpr ≠ 0) :
    (mock_round_issuance_per_year c l).map (fun r => (r.min, r.ideal, r.max))
      = some (c.ratio * l, c.ratio * l, c.ratio * l) ∧
    (round_issuance_range bpr l c).map (fun r => (r.min, r.ideal, r.max))
      = some (c.ratio * l, c.ratio * l, c.ratio * l) := by
  have hi : issuance_per_round c l = c.ratio * l := by
    unfold issuance_per_round checked_mul
    rw [if_pos h]
    simp [Nat.mul_comm]
  rw [round_issuance_range_eq_mock _ _ _ hbpr, mock_round_issuance_per_year_eq, hi]
  exact ⟨rfl, rfl⟩

/-- C5 witness at the reference scenario. -/
theorem no_overflow_range_witness :
    (mock_round_issuance_per_year ⟨10, 20, 80⟩ 2000).map (fun r => (r.min, r.ideal, r.max))
      = some (10 * 2000, 10 * 2000, 10 * 2000) ∧
    (round_issuance_range 12 2000 ⟨10, 20, 80⟩).map (fun r => (r.min, r.ideal, r.max))
      = some (10 * 2000, 10 * 2000, 10 * 2000) :=
  no_overflow_range ⟨10, 20, 80⟩ 2000 12 (by norm_num [u64size]) (by decide)

/-- C6: every range the calculator produces satisfies the validity
invariant `max >= ideal >= min`, as tested by `Range::is_valid`. -/
theorem range_is_valid (c : MiningResourceRateInfo) (l bpr : Nat) (hbpr : bpr ≠ 0) :
    (mock_round_issuance_per_year c l).map Range.is_valid = some true ∧
    (round_issuance_range bpr l c).map Range.is_valid = some true := by
  rw [round_issuance_range_eq_mock _ _ _ hbpr, mock_round_issuance_per_year_eq]
  simp [Range.is_valid]

/-- C6 witness at the reference scenario. -/
theorem range_is_valid_witness :
    (mock_round_issuance_per_year ⟨10, 20, 80⟩ 2000).map Range.is_valid = some true ∧
    (round_issuance_range 12 2000 ⟨10, 20, 80⟩).map Range.is_valid = some true :=
  range_is_valid ⟨10, 20, 80⟩ 2000 12 (by decide)

/-- C7: the annualization helper is `floor(floor(31557600 / 12) / round_length)`,
and the product `rounds_per_year * round_length` can differ from
`blocks_per_year` (witnessed by round length 7). -/
theorem rounds_per_year_floor (bpr : Nat) (h : bpr ≠ 0) :
    rounds_per_year bpr = some (31557600 / 12 / bpr) ∧
    ∃ b : Nat, b ≠ 0 ∧ ((rounds_per_year b).getD 0) * b ≠ 31557600 / 12 := by
  refine ⟨?_, 7, by decide, by decide⟩
  unfold rounds_per_year BLOCKS_PER_YEAR SECONDS_PER_YEAR SECONDS_PER_BLOCK
  rw [if_neg h]

/-- C7 witness at round length 12. -/
theorem rounds_per_year_floor_witness :
    rounds_per_year 12 = some (31557600 / 12 / 12) ∧
    ∃ b : Nat, b ≠ 0 ∧ ((rounds_per_year b).getD 0) * b ≠ 31557600 / 12 :=
  rounds_per_year_floor 12 (by decide)

/-- C8: the constructor stores exactly its arguments, and each mutator
updates exactly its own field, leaving the other two unchanged. -/
theorem config_mutators_frame (c : MiningResourceRateInfo) (r p q : Nat) :
    MiningResourceRateInfo.new r p q = ⟨r, p, q⟩ ∧
    c.set_ratio r = ⟨r, c.land_reward, c.metaverse_reward⟩ ∧
    c.set_land_reward p = ⟨c.ratio, p, c.metaverse_reward⟩ ∧
    c.set_metaverse_reward q = ⟨c.ratio, c.land_reward, q⟩ :=
  ⟨rfl, rfl, rfl, rfl⟩

/-- C9: with a reward percentage at most 100, the corresponding allocation
never exceeds the issuance (the `ideal` field), on the non-overflow path
and on the overflow-fallback path alike. -/
theorem allocation_le_issuance (c : MiningResourceRateInfo) (l : Nat) (r : Range Nat)
    (hr : mock_round_issuance_per_year c l = some r) :
    (c.land_reward ≤ 100 → r.land_allocation ≤ r.ideal) ∧
    (c.metaverse_reward ≤ 100 → r.metaverse_allocation ≤ r.ideal) := by
  rw [mock_round_issuance_per_year_eq, Option.some_inj] at hr
  subst hr
  exact ⟨fun h => allocation_of_le _ _ h, fun h => allocation_of_le _ _ h⟩

/-- C9 witness at the reference scenario. -/
theorem allocation_le_issuance_witness :
    (4000 : Nat) ≤ 20000 ∧ (16000 : Nat) ≤ 20000 := by
  have h := allocation_le_issuance ⟨10, 20, 80⟩ 2000
      ⟨20000, 20000, 20000, 4000, 16000⟩ (by decide)
  exact ⟨h.1 (by decide), h.2 (by decide)⟩

/-- C10: the annualization helper returns a value exactly when the round
length is at least 1, and at round length 0 its division by zero panics
(modelled as `none`). -/
theorem rounds_per_year_div_by_zero (bpr : Nat) :
    ((rounds_per_year bpr).isSome = true ↔ 1 ≤ bpr) ∧ rounds_per_year 0 = none := by
  refine ⟨?_, rfl⟩
  rcases Nat.eq_zero_or_pos bpr with h | h
  · subst h
    simp [rounds_per_year]
  · rw [rounds_per_year, if_neg (Nat.pos_iff_ne_zero.mp h)]
    simpa using h
